import Mathlib

/-!
Verification of the request-authentication / authorization / error-normalization
middleware of the backend (src/backend/middleware/auth.js, which contains the
`auth`, `authorize`, `optionalAuth` middleware, the `APIError` class, the
`errorHandler` middleware and the `asyncHandler` wrapper).

The JavaScript code is shallowly embedded:

* A JS value that participates in truthiness tests is modelled by `JValue`
  with a `truthy` function following JS semantics.
* A JS `Error` object, as seen by the error handler, is modelled by `JsError`:
  its `message`, whether it is an `instanceof APIError`, its (possibly absent)
  `status` and `details` properties, and its `stack` string.
* The `jsonwebtoken` library is modelled by an abstract decoding environment
  `JwtEnv`: every token string either decodes to a payload together with the
  secret it was signed with, or is malformed.  `jwtVerify` mirrors
  `jwt.verify(token, secret)`: a malformed token or a signature made with a
  different secret raises `JsonWebTokenError`, an expired token raises
  `TokenExpiredError` (jsonwebtoken treats the token as expired when the
  clock timestamp is ≥ the `exp` claim).
* Express middleware control flow is embedded functionally: a middleware
  either succeeds (calls `next()` with an updated request) — `Except.ok` —
  or fails (throws / calls `next(err)`) — `Except.error`.
-/

/-- A JS value carried in an error's `details` property (or elsewhere),
with just enough structure to express JS truthiness. -/
inductive JValue where
  | null : JValue
  | bool (b : Bool) : JValue
  | num (n : Int) : JValue
  | str (s : String) : JValue
  | obj (fields : List (String × String)) : JValue
deriving DecidableEq, Repr

/-- JS truthiness of a `JValue`: `null`, `false`, `0` and `""` are falsy,
every object (even `{}`) is truthy. -/
def JValue.truthy : JValue → Bool
  | .null => false
  | .bool b => b
  | .num n => n != 0
  | .str s => s != ""
  | .obj _ => true

/-- The claims payload of a JWT issued by this backend: `generateToken`
signs `{ id, email, role }` and the library adds the `exp` claim
(an instant, in seconds). -/
structure Claims where
  id : String
  email : String
  role : String
  exp : Nat
deriving DecidableEq, Repr

/-- An error value as observed by `errorHandler`.  `isAPIError` records the
result of `err instanceof APIError`; `status` is `none` when the JS object has
no `status` property (`undefined`); `details` likewise. -/
structure JsError where
  message : String
  isAPIError : Bool
  status : Option Nat
  details : Option JValue
  stack : String
deriving DecidableEq, Repr

/-- The stack string V8 attaches to an `Error` constructed with the given
message (`new Error(message)` inside the `APIError` constructor); always a
non-empty string. -/
def mkStack (message : String) : String :=
  "Error: " ++ message ++ "\n    at <anonymous>"

/-- The `APIError` class: `constructor(message, status = 500, details = null)`.
It extends `Error`, so `instanceof APIError` holds and a stack is captured. -/
def mkAPIError (message : String) (status : Nat) (details : Option JValue) : JsError :=
  { message := message
    isAPIError := true
    status := some status
    details := details
    stack := mkStack message }

/-- The two verification errors `jwt.verify` can raise for the tokens this
backend issues (no `nbf` claim is ever set): a bad/malformed signature and an
expired token. -/
inductive JwtError where
  | TokenExpiredError : JwtError
  | JsonWebTokenError : JwtError
deriving DecidableEq, Repr

/-- Abstract model of the JWT token-string space: each string either decodes
to its signed payload together with the secret that produced the signature,
or is malformed (`none`). -/
structure JwtEnv where
  decode : String → Option (Claims × String)

/-- Model of `jwt.verify(token, secret)` at clock instant `now`: an empty or
malformed token, or a signature made with a different secret, raises
`JsonWebTokenError`; otherwise the token is expired (raising
`TokenExpiredError`) when `now ≥ exp`; otherwise the decoded payload is
returned. -/
def jwtVerify (jenv : JwtEnv) (token secret : String) (now : Nat) :
    Except JwtError Claims :=
  if token = "" then .error .JsonWebTokenError
  else
    match jenv.decode token with
    | none => .error .JsonWebTokenError
    | some (payload, sigSecret) =>
      if sigSecret ≠ secret then .error .JsonWebTokenError
      else if payload.exp ≤ now then .error .TokenExpiredError
      else .ok payload

/-- An HTTP request as the middleware sees it: the `Authorization` header
(`none` = header absent / `undefined`) and the `req.user` attachment. -/
structure Request where
  authorization : Option String
  user : Option Claims
deriving DecidableEq, Repr

/-- `s.startsWith(pre)`: JS `String.prototype.startsWith`, computed on the
character list. -/
def jsStartsWith (s pre : String) : Bool :=
  pre.data.isPrefixOf s.data

/-- Splits a character list at every occurrence of `sep`, keeping empty
chunks, exactly like JS `String.prototype.split` with a one-character
separator. -/
def splitCharAux (sep : Char) : List Char → List (List Char)
  | [] => [[]]
  | c :: rest =>
    match splitCharAux sep rest with
    | [] => [[]]
    | cur :: parts =>
      if c = sep then [] :: cur :: parts else (c :: cur) :: parts

/-- JS `s.split(sep)` for a one-character separator. -/
def jsSplit (sep : Char) (s : String) : List String :=
  (splitCharAux sep s.data).map (fun cs => String.mk cs)

/-- `authHeader.split(' ')[1]`: the second chunk of the header split on
spaces (JS yields `undefined`, which `jwt.verify` rejects, when there is no
second chunk; `""` stands for that here and `jwtVerify` rejects it too). -/
def extractToken (authHeader : String) : String :=
  (jsSplit ' ' authHeader).getD 1 ""

/-- The `auth` middleware.  Mirrors src/backend/middleware/auth.js lines
10–47: a falsy header (`undefined` or `""`) → 401 "No authentication token
provided"; a header not starting with `"Bearer "` → 401 "Invalid token
format"; otherwise the token is `authHeader.split(' ')[1]` and is verified,
`TokenExpiredError` → 401 "Token has expired", `JsonWebTokenError` → 401
"Invalid token"; on success `req.user` is set to the decoded claims and
`next()` is called. -/
def auth (jenv : JwtEnv) (secret : String) (now : Nat) (req : Request) :
    Except JsError Request :=
  match req.authorization with
  | none => .error (mkAPIError "No authentication token provided" 401 none)
  | some authHeader =>
    if authHeader = "" then
      .error (mkAPIError "No authentication token provided" 401 none)
    else if !(jsStartsWith authHeader "Bearer ") then
      .error (mkAPIError "Invalid token format" 401 none)
    else
      match jwtVerify jenv (extractToken authHeader) secret now with
      | .ok decoded => .ok { req with user := some decoded }
      | .error .TokenExpiredError =>
          .error (mkAPIError "Token has expired" 401 none)
      | .error .JsonWebTokenError =>
          .error (mkAPIError "Invalid token" 401 none)

/-- The middleware returned by `authorize(roles)` (lines 53–69): no
`req.user` → 401 "User not authenticated"; a non-empty role list not
containing `req.user.role` → 403; otherwise `next()`. -/
def authorize (roles : List String) (req : Request) : Except JsError Unit :=
  match req.user with
  | none => .error (mkAPIError "User not authenticated" 401 none)
  | some user =>
    if roles.length != 0 && !(roles.contains user.role) then
      .error (mkAPIError "Unauthorized - Insufficient permissions" 403 none)
    else
      .ok ()

/-- The `optionalAuth` middleware (lines 75–97): a falsy header or one not
starting with `"Bearer "` → `next()` with the request unchanged; a token
failing verification is ignored (only logged) and `next()` is called with the
request unchanged; a valid token attaches `req.user`. -/
def optionalAuth (jenv : JwtEnv) (secret : String) (now : Nat) (req : Request) :
    Except JsError Request :=
  match req.authorization with
  | none => .ok req
  | some authHeader =>
    if authHeader = "" || !(jsStartsWith authHeader "Bearer ") then
      .ok req
    else
      match jwtVerify jenv (extractToken authHeader) secret now with
      | .ok decoded => .ok { req with user := some decoded }
      | .error _ => .ok req

/-- The inner object of the JSON error envelope
`{ "error": { message, status, details?, stack? } }`; `none` in `details` /
`stack` means the key is absent from the serialized body. -/
structure ErrorBody where
  message : String
  status : Nat
  details : Option JValue
  stack : Option String
deriving DecidableEq, Repr

/-- The whole error envelope: the body has exactly one top-level key,
`error`. -/
structure ErrorEnvelope where
  error : ErrorBody
deriving DecidableEq, Repr

/-- `err.status || 500`: the JS `||` falls through to 500 when `status` is
absent (`undefined`) or `0` (falsy). -/
def statusOrDefault : Option Nat → Nat
  | none => 500
  | some s => if s = 0 then 500 else s

/-- The `errorHandler` middleware (lines 122–148) as a function from the
environment mode and the raised error to the HTTP status code it sets and
the JSON envelope it sends.  `message` is the error's own message only for
`instanceof APIError`, otherwise the fixed string; `status` is
`err.status || 500`; `details` is spread in only when truthy; `stack` is
spread in exactly when `config.server.env === 'development'`. -/
def errorHandler (env : String) (err : JsError) : Nat × ErrorEnvelope :=
  let statusCode := statusOrDefault err.status
  (statusCode,
    { error :=
        { message := if err.isAPIError then err.message else "Internal Server Error"
          status := statusCode
          details :=
            match err.details with
            | some d => if d.truthy then some d else none
            | none => none
          stack := if env = "development" then some err.stack else none } })

/-- The outcome of running a supervised `async` handler: it resolves with a
response, throws before its first suspension point, or rejects its returned
promise after a suspension point. -/
inductive HandlerResult (α : Type) where
  | ok (r : α) : HandlerResult α
  | throwSync (e : JsError) : HandlerResult α
  | rejectAsync (e : JsError) : HandlerResult α
deriving DecidableEq, Repr

/-- What `asyncHandler(fn)` hands to Express: either the handler's own
response went out, or `next(err)` was invoked routing `err` to the error
middleware. -/
inductive Routed (α : Type) where
  | response (r : α) : Routed α
  | nextErr (e : JsError) : Routed α
deriving DecidableEq, Repr

/-- `asyncHandler` (lines 151–153): `Promise.resolve(fn(req, res, next)).catch(next)`.
For an `async` handler both a throw before the first `await` and a rejection
after it surface as a rejected promise, caught by `.catch(next)`. -/
def asyncHandler {α : Type} (fn : Request → HandlerResult α) (req : Request) :
    Routed α :=
  match fn req with
  | .ok r => .response r
  | .throwSync e => .nextErr e
  | .rejectAsync e => .nextErr e

/-- The terminal outcome of a supervised request: the handler's own response,
or the error response produced by `errorHandler`. -/
inductive Supervised (α : Type) where
  | response (r : α) : Supervised α
  | errorResponse (status : Nat) (body : ErrorEnvelope) : Supervised α
deriving DecidableEq, Repr

/-- `run_supervised`: the composition the spec names — every route handler is
wrapped in `asyncHandler`, and errors routed via `next` land in
`errorHandler`, which sends the terminal error response. -/
def runSupervised {α : Type} (env : String) (fn : Request → HandlerResult α)
    (req : Request) : Supervised α :=
  match asyncHandler fn req with
  | .response r => .response r
  | .nextErr e => .errorResponse (errorHandler env e).1 (errorHandler env e).2


/-! ### Helper lemmas about the branches of `auth` -/

lemma auth_header_none (jenv : JwtEnv) (secret : String) (now : Nat) (req : Request)
    (hA : req.authorization = none) :
    auth jenv secret now req = .error (mkAPIError "No authentication token provided" 401 none) := by
  simp [auth, hA]

lemma auth_header_empty (jenv : JwtEnv) (secret : String) (now : Nat) (req : Request)
    (hA : req.authorization = some "") :
    auth jenv secret now req = .error (mkAPIError "No authentication token provided" 401 none) := by
  simp [auth, hA]

lemma auth_bad_scheme (jenv : JwtEnv) (secret : String) (now : Nat) (req : Request)
    (h : String) (hA : req.authorization = some h) (h0 : h ≠ "")
    (hs : jsStartsWith h "Bearer " = false) :
    auth jenv secret now req = .error (mkAPIError "Invalid token format" 401 none) := by
  simp [auth, hA, h0, hs]

lemma auth_verify_ok (jenv : JwtEnv) (secret : String) (now : Nat) (req : Request)
    (h : String) (c : Claims) (hA : req.authorization = some h) (h0 : h ≠ "")
    (hs : jsStartsWith h "Bearer " = true)
    (hw : jwtVerify jenv (extractToken h) secret now = .ok c) :
    auth jenv secret now req = .ok { req with user := some c } := by
  simp [auth, hA, h0, hs, hw]

lemma auth_verify_expired (jenv : JwtEnv) (secret : String) (now : Nat) (req : Request)
    (h : String) (hA : req.authorization = some h) (h0 : h ≠ "")
    (hs : jsStartsWith h "Bearer " = true)
    (hw : jwtVerify jenv (extractToken h) secret now = .error .TokenExpiredError) :
    auth jenv secret now req = .error (mkAPIError "Token has expired" 401 none) := by
  simp [auth, hA, h0, hs, hw]

lemma auth_verify_invalid (jenv : JwtEnv) (secret : String) (now : Nat) (req : Request)
    (h : String) (hA : req.authorization = some h) (h0 : h ≠ "")
    (hs : jsStartsWith h "Bearer " = true)
    (hw : jwtVerify jenv (extractToken h) secret now = .error .JsonWebTokenError) :
    auth jenv secret now req = .error (mkAPIError "Invalid token" 401 none) := by
  simp [auth, hA, h0, hs, hw]

lemma startsWith_ne_empty (h : String) (hs : jsStartsWith h "Bearer " = true) : h ≠ "" := by
  intro h0
  subst h0
  exact absurd hs (by decide)

/-- C1: `auth` fails (routes an error to the error middleware) exactly when
the `Authorization` header is absent, it does not start with the `Bearer `
scheme, JWT signature verification fails, or the token has expired — and
every such failure carries HTTP status 401. -/
theorem auth_fails_401_exactly (jenv : JwtEnv) (secret : String) (now : Nat) (req : Request) :
    ((∃ e, auth jenv secret now req = .error e) ↔
      (req.authorization = none ∨
       (∃ h, req.authorization = some h ∧ jsStartsWith h "Bearer " = false) ∨
       (∃ h, req.authorization = some h ∧ jsStartsWith h "Bearer " = true ∧
         jwtVerify jenv (extractToken h) secret now = .error .JsonWebTokenError) ∨
       (∃ h, req.authorization = some h ∧ jsStartsWith h "Bearer " = true ∧
         jwtVerify jenv (extractToken h) secret now = .error .TokenExpiredError))) ∧
    (∀ e, auth jenv secret now req = .error e → e.status = some 401) := by
  rcases hA : req.authorization with _ | h
  · have hh := auth_header_none jenv secret now req hA
    refine ⟨⟨fun _ => Or.inl rfl, fun _ => ⟨_, hh⟩⟩, ?_⟩
    intro e he
    have h2 := Except.error.inj (hh.symm.trans he)
    subst h2
    rfl
  · by_cases h0 : h = ""
    · subst h0
      have hh := auth_header_empty jenv secret now req hA
      refine ⟨⟨fun _ => Or.inr (Or.inl ⟨"", rfl, by decide⟩), fun _ => ⟨_, hh⟩⟩, ?_⟩
      intro e he
      have h2 := Except.error.inj (hh.symm.trans he)
      subst h2
      rfl
    · cases hs : jsStartsWith h "Bearer " with
      | false =>
        have hh := auth_bad_scheme jenv secret now req h hA h0 hs
        refine ⟨⟨fun _ => Or.inr (Or.inl ⟨h, rfl, hs⟩), fun _ => ⟨_, hh⟩⟩, ?_⟩
        intro e he
        have h2 := Except.error.inj (hh.symm.trans he)
        subst h2
        rfl
      | true =>
        rcases hw : jwtVerify jenv (extractToken h) secret now with er | c
        · cases er with
          | TokenExpiredError =>
            have hh := auth_verify_expired jenv secret now req h hA h0 hs hw
            refine ⟨⟨fun _ => Or.inr (Or.inr (Or.inr ⟨h, rfl, hs, hw⟩)),
                     fun _ => ⟨_, hh⟩⟩, ?_⟩
            intro e he
            have h2 := Except.error.inj (hh.symm.trans he)
            subst h2
            rfl
          | JsonWebTokenError =>
            have hh := auth_verify_invalid jenv secret now req h hA h0 hs hw
            refine ⟨⟨fun _ => Or.inr (Or.inr (Or.inl ⟨h, rfl, hs, hw⟩)),
                     fun _ => ⟨_, hh⟩⟩, ?_⟩
            intro e he
            have h2 := Except.error.inj (hh.symm.trans he)
            subst h2
            rfl
        · have hh := auth_verify_ok jenv secret now req h c hA h0 hs hw
          refine ⟨⟨?_, ?_⟩, ?_⟩
          · rintro ⟨e, he⟩
            exact Except.noConfusion (hh.symm.trans he)
          · intro hcase
            exfalso
            rcases hcase with h1 | ⟨h', hA', hs'⟩ | ⟨h', hA', hs', hw'⟩ | ⟨h', hA', hs', hw'⟩
            · exact Option.noConfusion h1
            · cases Option.some.inj hA'
              rw [hs] at hs'
              exact Bool.noConfusion hs'
            · cases Option.some.inj hA'
              rw [hw] at hw'
              exact Except.noConfusion hw'
            · cases Option.some.inj hA'
              rw [hw] at hw'
              exact Except.noConfusion hw'
          · intro e he
            exact Except.noConfusion (hh.symm.trans he)

/-- C4: `authorize` fails with 401 when no identity is attached; succeeds
when the allowed-roles list is empty or contains the identity's role; fails
with 403 in every other case. -/
theorem authorize_role_check (roles : List String) (req : Request) :
    (req.user = none →
      ∃ e, authorize roles req = .error e ∧ e.status = some 401) ∧
    (∀ u, req.user = some u → roles = [] → authorize roles req = .ok ()) ∧
    (∀ u, req.user = some u → roles.contains u.role = true →
      authorize roles req = .ok ()) ∧
    (∀ u, req.user = some u → roles ≠ [] → roles.contains u.role = false →
      ∃ e, authorize roles req = .error e ∧ e.status = some 403) := by
  refine ⟨?_, ?_, ?_, ?_⟩
  · intro hu
    exact ⟨mkAPIError "User not authenticated" 401 none, by simp [authorize, hu], rfl⟩
  · intro u hu hr
    subst hr
    simp [authorize, hu]
  · intro u hu hc
    have hmem : u.role ∈ roles := by simpa using hc
    simp only [authorize, hu]
    simp [hmem]
  · intro u hu hr hc
    have hmem : u.role ∉ roles := by simpa using hc
    have hlen : roles.length ≠ 0 := fun hz => hr (List.length_eq_zero.mp hz)
    exact ⟨mkAPIError "Unauthorized - Insufficient permissions" 403 none,
      by simp [authorize, hu, hmem, hlen], rfl⟩

/-- A request whose header carries a well-formed bearer token that decodes
under the configured secret and has not expired is accepted by `auth`, which
attaches exactly the decoded claims. -/
lemma auth_ok_of_valid (jenv : JwtEnv) (secret : String) (now : Nat) (req : Request)
    (h : String) (c : Claims)
    (hA : req.authorization = some h) (hs : jsStartsWith h "Bearer " = true)
    (hne : extractToken h ≠ "")
    (hdec : jenv.decode (extractToken h) = some (c, secret)) (hexp : now < c.exp) :
    auth jenv secret now req = .ok { req with user := some c } := by
  have h0 := startsWith_ne_empty h hs
  have hw : jwtVerify jenv (extractToken h) secret now = .ok c := by
    simp [jwtVerify, hne, hdec, Nat.not_le.mpr hexp]
  exact auth_verify_ok jenv secret now req h c hA h0 hs hw

/-- C5: for a request carrying a valid, unexpired, correctly signed bearer
token, `auth` succeeds and attaches to the request an identity equal to the
token's decoded claims, passed on to the downstream handler. -/
theorem auth_valid_attaches_claims (jenv : JwtEnv) (secret : String) (now : Nat)
    (req : Request) (h : String) (c : Claims)
    (hA : req.authorization = some h) (hs : jsStartsWith h "Bearer " = true)
    (hne : extractToken h ≠ "")
    (hdec : jenv.decode (extractToken h) = some (c, secret)) (hexp : now < c.exp) :
    auth jenv secret now req = .ok { req with user := some c } :=
  auth_ok_of_valid jenv secret now req h c hA hs hne hdec hexp

/-- The claims of the demonstration token used in the concrete witnesses. -/
def demoClaims : Claims :=
  { id := "1001", email := "admin@example.com", role := "admin", exp := 1000 }

/-- A token universe with exactly one well-formed token, signed with the
configured development secret. -/
def demoJwtEnv : JwtEnv :=
  { decode := fun t =>
      if t = "xxx.yyy.zzz" then some (demoClaims, "your-secret-key") else none }

/-- A request presenting the demonstration token with the bearer scheme. -/
def demoRequest : Request :=
  { authorization := some "Bearer xxx.yyy.zzz", user := none }

/-- Witness for C5 on a concrete valid token. -/
theorem auth_valid_attaches_claims_witness :
    auth demoJwtEnv "your-secret-key" 10 demoRequest =
      .ok { demoRequest with user := some demoClaims } :=
  auth_valid_attaches_claims demoJwtEnv "your-secret-key" 10 demoRequest
    "Bearer xxx.yyy.zzz" demoClaims rfl (by decide) (by decide) (by decide) (by decide)

/-- C9: `auth` is deterministic over the token: two calls with the same valid
token, both made before the token expires, yield the same attached identity. -/
theorem auth_deterministic (jenv : JwtEnv) (secret : String) (req : Request)
    (h : String) (c : Claims) (now1 now2 : Nat)
    (hA : req.authorization = some h) (hs : jsStartsWith h "Bearer " = true)
    (hne : extractToken h ≠ "")
    (hdec : jenv.decode (extractToken h) = some (c, secret))
    (h1 : now1 < c.exp) (h2 : now2 < c.exp) :
    auth jenv secret now1 req = auth jenv secret now2 req ∧
    auth jenv secret now1 req = .ok { req with user := some c } := by
  have e1 := auth_ok_of_valid jenv secret now1 req h c hA hs hne hdec h1
  have e2 := auth_ok_of_valid jenv secret now2 req h c hA hs hne hdec h2
  exact ⟨e1.trans e2.symm, e1⟩

/-- Witness for C9 at two different concrete instants. -/
theorem auth_deterministic_witness :
    auth demoJwtEnv "your-secret-key" 10 demoRequest =
      auth demoJwtEnv "your-secret-key" 20 demoRequest ∧
    auth demoJwtEnv "your-secret-key" 10 demoRequest =
      .ok { demoRequest with user := some demoClaims } :=
  auth_deterministic demoJwtEnv "your-secret-key" demoRequest
    "Bearer xxx.yyy.zzz" demoClaims 10 20 rfl (by decide) (by decide) (by decide)
    (by decide) (by decide)

/-- C6: `optionalAuth` never fails the request: a missing or malformed header
and a token failing verification all continue with the identity absent
(request unchanged), and a valid token attaches the decoded identity. -/
theorem optionalAuth_never_fails (jenv : JwtEnv) (secret : String) (now : Nat)
    (req : Request) :
    (∃ r, optionalAuth jenv secret now req = .ok r) ∧
    (req.authorization = none → optionalAuth jenv secret now req = .ok req) ∧
    (∀ h, req.authorization = some h → jsStartsWith h "Bearer " = false →
      optionalAuth jenv secret now req = .ok req) ∧
    (∀ h er, req.authorization = some h → h ≠ "" → jsStartsWith h "Bearer " = true →
      jwtVerify jenv (extractToken h) secret now = .error er →
      optionalAuth jenv secret now req = .ok req) ∧
    (∀ h c, req.authorization = some h → h ≠ "" → jsStartsWith h "Bearer " = true →
      jwtVerify jenv (extractToken h) secret now = .ok c →
      optionalAuth jenv secret now req = .ok { req with user := some c }) := by
  refine ⟨?_, ?_, ?_, ?_, ?_⟩
  · rcases hA : req.authorization with _ | h
    · exact ⟨req, by simp [optionalAuth, hA]⟩
    · by_cases h0 : h = ""
      · subst h0
        exact ⟨req, by simp [optionalAuth, hA]⟩
      · cases hs : jsStartsWith h "Bearer " with
        | false => exact ⟨req, by simp [optionalAuth, hA, h0, hs]⟩
        | true =>
          rcases hw : jwtVerify jenv (extractToken h) secret now with er | c
          · exact ⟨req, by simp [optionalAuth, hA, h0, hs, hw]⟩
          · exact ⟨{ req with user := some c }, by simp [optionalAuth, hA, h0, hs, hw]⟩
  · intro hA
    simp [optionalAuth, hA]
  · intro h hA hs
    simp [optionalAuth, hA, hs]
  · intro h er hA h0 hs hw
    simp [optionalAuth, hA, h0, hs, hw]
  · intro h c hA h0 hs hw
    simp [optionalAuth, hA, h0, hs, hw]

/-! ### Error Normalizer -/

lemma mkStack_ne_empty (m : String) : mkStack m ≠ "" := by
  intro hc
  have hlen := congrArg String.length hc
  simp [mkStack, String.length_append] at hlen
  exact absurd hlen.1.1 (by decide)

/-- C2: a Structured Error (an `APIError` carrying message, status and
optional details) is rendered verbatim: the envelope body is exactly
`{ error := { message, status, details?, stack? } }` with the error's own
message and status, its details when present, and the HTTP status code set to
the error's status. -/
theorem errorHandler_structured_verbatim (env m : String) (s : Nat) (d : Option JValue)
    (hs : s ≠ 0) (hd : ∀ v, d = some v → v.truthy = true) :
    errorHandler env (mkAPIError m s d) =
      (s, { error := { message := m, status := s, details := d,
                       stack := if env = "development" then some (mkStack m) else none } }) := by
  rcases d with _ | v
  · simp [errorHandler, mkAPIError, statusOrDefault, hs]
  · have hv := hd v rfl
    simp [errorHandler, mkAPIError, statusOrDefault, hs, hv]

/-- Witness for C2: the spec's scenario — a 404 "Payment not found"
Structured Error in production mode. -/
theorem errorHandler_structured_verbatim_witness :
    errorHandler "production" (mkAPIError "Payment not found" 404 none) =
      (404, { error := { message := "Payment not found", status := 404, details := none,
                         stack := none } }) := by
  have h := errorHandler_structured_verbatim "production" "Payment not found" 404 none
    (by decide) (fun v hv => by cases hv)
  rw [if_neg (by decide : ¬("production" : String) = "development")] at h
  exact h

/-- A runtime failure that is not an `APIError` but does carry a truthy
`status` property (as errors of HTTP libraries do). -/
def statusCarryingFailure : JsError :=
  { message := "Payment API unreachable", isAPIError := false, status := some 404,
    details := none, stack := "Error: Payment API unreachable\n    at <anonymous>" }

/-- Counterexample to C3 as stated: for this non-Structured error the
envelope's status is 404, not 500 (though the message is still replaced). -/
theorem errorHandler_unstructured_not_always_500 :
    statusCarryingFailure.isAPIError = false ∧
    (errorHandler "production" statusCarryingFailure).1 = 404 ∧
    (errorHandler "production" statusCarryingFailure).2.error.status = 404 ∧
    (errorHandler "production" statusCarryingFailure).2.error.message = "Internal Server Error" :=
  ⟨rfl, rfl, rfl, rfl⟩

/-- C3 (amended): for every error not constructed as a Structured Error the
client-visible message is the fixed "Internal Server Error" (never the
original message), the status is `err.status || 500` — so 500 exactly when
the error carries no truthy `status` property. -/
theorem errorHandler_unstructured_generic (env : String) (err : JsError)
    (h : err.isAPIError = false) :
    (errorHandler env err).2.error.message = "Internal Server Error" ∧
    (err.message ≠ "Internal Server Error" →
      (errorHandler env err).2.error.message ≠ err.message) ∧
    (errorHandler env err).1 = statusOrDefault err.status ∧
    (errorHandler env err).2.error.status = statusOrDefault err.status ∧
    (err.status = none → (errorHandler env err).1 = 500) := by
  refine ⟨by simp [errorHandler, h], ?_, rfl, rfl, ?_⟩
  · intro hm
    simp only [errorHandler, h]
    simp only [Bool.false_eq_true, if_false]
    exact fun hcontra => hm hcontra.symm
  · intro hst
    simp [errorHandler, hst, statusOrDefault]

/-- An unclassified runtime failure carrying no `status` at all. -/
def genericFailure : JsError :=
  { message := "Cannot read properties of undefined", isAPIError := false,
    status := none, details := none,
    stack := "TypeError: Cannot read properties of undefined\n    at <anonymous>" }

/-- Witness for the amended C3 on a concrete status-less failure. -/
theorem errorHandler_unstructured_generic_witness :
    (errorHandler "production" genericFailure).2.error.message = "Internal Server Error" ∧
    (errorHandler "production" genericFailure).1 = 500 := by
  have h := errorHandler_unstructured_generic "production" genericFailure rfl
  exact ⟨h.1, h.2.2.2.2 rfl⟩

/-- C7: the envelope carries a `stack` field exactly when the configured
environment mode is `development` (in production it is omitted
unconditionally); in development mode the stack is the error's own stack, and
the stack the `Error` constructor produces is never the empty string. -/
theorem errorHandler_stack_iff_development (env : String) (err : JsError) :
    ((∃ st, (errorHandler env err).2.error.stack = some st) ↔ env = "development") ∧
    (env ≠ "development" → (errorHandler env err).2.error.stack = none) ∧
    (env = "development" → (errorHandler env err).2.error.stack = some err.stack) ∧
    (∀ m, mkStack m ≠ "") := by
  by_cases hdev : env = "development"
  · subst hdev
    exact ⟨⟨fun _ => rfl, fun _ => ⟨err.stack, by simp [errorHandler]⟩⟩,
      fun hne => absurd rfl hne, fun _ => by simp [errorHandler], mkStack_ne_empty⟩
  · refine ⟨⟨?_, fun hdev' => absurd hdev' hdev⟩,
      fun _ => by simp [errorHandler, hdev], fun hdev' => absurd hdev' hdev,
      mkStack_ne_empty⟩
    rintro ⟨st, hst⟩
    rw [show (errorHandler env err).2.error.stack = none by simp [errorHandler, hdev]] at hst
    exact Option.noConfusion hst

/-- C10 (implicit in the code): a non-`APIError` carrying a truthy `status`
keeps that status in the envelope and as the HTTP status code, while the
message is still replaced by the fixed string; a truthy `details` property is
attached even for such unrecognized errors. -/
theorem errorHandler_nonapi_truthy_status (env : String) (err : JsError) (s : Nat)
    (h1 : err.isAPIError = false) (h2 : err.status = some s) (h3 : s ≠ 0) :
    (errorHandler env err).1 = s ∧
    (errorHandler env err).2.error.status = s ∧
    (errorHandler env err).2.error.message = "Internal Server Error" ∧
    (∀ d, err.details = some d → d.truthy = true →
      (errorHandler env err).2.error.details = some d) := by
  refine ⟨?_, ?_, by simp [errorHandler, h1], ?_⟩
  · simp [errorHandler, statusOrDefault, h2, h3]
  · simp [errorHandler, statusOrDefault, h2, h3]
  · intro d hd htr
    simp [errorHandler, hd, htr]

/-- A body-parser style failure: not an `APIError`, but with `status` 400 and
a truthy `details` value. -/
def bodyParseFailure : JsError :=
  { message := "Unexpected token in JSON", isAPIError := false, status := some 400,
    details := some (.str "entity.parse.failed"),
    stack := "SyntaxError: Unexpected token in JSON\n    at <anonymous>" }

/-- Witness for C10 on a concrete status-carrying non-`APIError`. -/
theorem errorHandler_nonapi_truthy_status_witness :
    (errorHandler "production" bodyParseFailure).1 = 400 ∧
    (errorHandler "production" bodyParseFailure).2.error.status = 400 ∧
    (errorHandler "production" bodyParseFailure).2.error.message = "Internal Server Error" ∧
    (errorHandler "production" bodyParseFailure).2.error.details =
      some (.str "entity.parse.failed") := by
  have h := errorHandler_nonapi_truthy_status "production" bodyParseFailure 400
    rfl rfl (by decide)
  exact ⟨h.1, h.2.1, h.2.2.1, h.2.2.2 (.str "entity.parse.failed") rfl (by decide)⟩

/-- C8: a supervised handler's normal response is returned unchanged, and a
failure — thrown synchronously or rejected after a suspension point — is
intercepted and converted into the terminal HTTP error response produced by
`errorHandler`; every supervised run ends in one of these two terminal
outcomes, never an unhandled escape. -/
theorem runSupervised_spec (α : Type) (env : String) (fn : Request → HandlerResult α)
    (req : Request) :
    (∀ r, fn req = .ok r → runSupervised env fn req = .response r) ∧
    (∀ e, fn req = .throwSync e →
      runSupervised env fn req =
        .errorResponse (errorHandler env e).1 (errorHandler env e).2) ∧
    (∀ e, fn req = .rejectAsync e →
      runSupervised env fn req =
        .errorResponse (errorHandler env e).1 (errorHandler env e).2) ∧
    ((∃ r, runSupervised env fn req = .response r) ∨
     (∃ st b, runSupervised env fn req = .errorResponse st b)) := by
  refine ⟨?_, ?_, ?_, ?_⟩
  · intro r hr
    simp [runSupervised, asyncHandler, hr]
  · intro e he
    simp [runSupervised, asyncHandler, he]
  · intro e he
    simp [runSupervised, asyncHandler, he]
  · rcases hr : fn req with r | e | e
    · exact Or.inl ⟨r, by simp [runSupervised, asyncHandler, hr]⟩
    · exact Or.inr ⟨(errorHandler env e).1, (errorHandler env e).2,
        by simp [runSupervised, asyncHandler, hr]⟩
    · exact Or.inr ⟨(errorHandler env e).1, (errorHandler env e).2,
        by simp [runSupervised, asyncHandler, hr]⟩
